import Mathlib

/-!
Verification of the plugin manager of `luodeb/chat-client`
(`src-tauri/src/plugins/manager.rs`), shallowly embedded in Lean 4.

The manager owns a registry of plugin instances (`HashMap<String, PluginInstance>`
in the source, an association list here), a single current-plugin pointer, and
drives plugin lifecycle (`mount_plugin`, `dispose_plugin`, `connect_plugin`,
`disconnect_plugin`), messaging (`send_message_to_current_plugin`), and the UI
bridge (`get_plugin_ui`, `handle_plugin_ui_update`, `handle_plugin_ui_event`,
`cleanup_all_plugins`).

External collaborators (the plugin loader's `scan_plugins`, the dynamic-library
loader, and the behaviour of the loaded plugin's entry points) are modelled by
an environment `HostEnv` of oracles keyed by the library path the code passes to
them.  Calls into plugin entry points and frontend notifications are recorded in
an event trace so that claims about which entry points run can be stated.
-/

namespace ChatClient

/-- Plugin metadata record produced by the discovery collaborator
(`PluginMetadata` in `plugin_interfaces`): id, display name, version and an
optional resolved library path. -/
structure PluginMetadata where
  id : String
  name : String
  version : String
  library_path : Option String
  deriving Repr, DecidableEq

/-- Modelled from the spec: the mutable UI builder `Ui` of the external
`plugin_interfaces` crate (not under `src/`).  Per spec §4.3 it accumulates a
tree of component descriptions (kept abstract as their serialized forms), a set
of registered event targets (components such as buttons that accept dispatched
events), and pending event state that survives a render pass until the manager
clears it. -/
structure Ui where
  plugin_id : String
  components : List String
  event_targets : List String
  event_state : List (String × String)
  deriving Repr, DecidableEq

/-- Modelled from the spec: `Ui::new(plugin_id)` creates an empty builder. -/
def Ui.new (plugin_id : String) : Ui :=
  { plugin_id := plugin_id, components := [], event_targets := [], event_state := [] }

/-- Modelled from the spec: `Ui::handle_ui_event(component_id, value)` asks the
builder whether `component_id` is a registered event target; when it is, the
event is recorded in the builder's event state and `true` is returned, otherwise
the builder is unchanged and `false` is returned. -/
def Ui.handle_ui_event (ui : Ui) (component_id value : String) : Bool × Ui :=
  if ui.event_targets.contains component_id then
    (true, { ui with event_state := ui.event_state ++ [(component_id, value)] })
  else
    (false, ui)

/-- Modelled from the spec: `Ui::clear_components_only` clears the component
tree but preserves the builder's pending event state. -/
def Ui.clear_components_only (ui : Ui) : Ui :=
  { ui with components := [] }

/-- Modelled from the spec: `Ui::clear_events` clears the builder's pending
event state. -/
def Ui.clear_events (ui : Ui) : Ui :=
  { ui with event_state := [] }

/-- Modelled from the spec: `Ui::get_components` returns the component tree. -/
def Ui.get_components (ui : Ui) : List String :=
  ui.components

/-- Render context handed to a plugin's `update_ui` entry point
(`pluginui::Context`): the plugin id plus optional incoming UI-event data. -/
structure Context where
  plugin_id : String
  ui_event_data : Option (List (String × String))
  deriving Repr, DecidableEq

/-- Translation of `Context::new(plugin_id)`. -/
def Context.new (plugin_id : String) : Context :=
  { plugin_id := plugin_id, ui_event_data := none }

/-- Translation of `Context::with_ui_event_data(plugin_id, data)`. -/
def Context.with_ui_event_data (plugin_id : String)
    (data : List (String × String)) : Context :=
  { plugin_id := plugin_id, ui_event_data := some data }

/-- Serialization of the builder's component tree
(`serde_json::to_string(&ui.get_components())` in the source).  Serialization of
the abstract component list is modelled as a total function; the source's
serde-failure fallback branch (which substitutes `"[]"`) is therefore never
taken. -/
def serializeComponents (cs : List String) : String :=
  "[" ++ String.intercalate "," cs ++ "]"

/-- Live state of one loaded plugin (`PluginInstance` in `manager.rs`).  The
raw `handler: *mut PluginInterface` and the `library: Library` handle are
opaque at this level; both are represented by the library path `libPath` they
were obtained from, which is the key the environment oracles use to look up the
plugin's behaviour. -/
structure PluginInstance where
  metadata : PluginMetadata
  libPath : String
  is_mounted : Bool
  is_connected : Bool
  ui_data : Option String
  ui_instance : Option Ui
  deriving Repr, DecidableEq

/-- State owned by the `PluginManager`: the registry
(`instances: HashMap<String, PluginInstance>`, as an association list) and the
current-plugin pointer (`current_plugin: Option<String>`). -/
structure MState where
  instances : List (String × PluginInstance)
  current : Option String
  deriving Repr, DecidableEq

/-- Observable calls the manager makes into the plugin or the frontend, used to
state claims about which entry points are invoked. -/
inductive Event where
  | initCall (id : String)
  | onMountCall (id : String)
  | updateUiCall (id : String)
  | destroyCall (id : String)
  | onDisposeCall (id : String)
  | onConnectCall (id : String)
  | onDisconnectCall (id : String)
  | notifyFrontend (id : String)
  deriving Repr, DecidableEq

/-- Environment of external collaborators: the loader's scan result, the
dynamic-library loader (`Library::new`, symbol resolution, `create_plugin`),
and the behaviour of the loaded plugin's entry points.  All library-level
oracles are keyed by the library path the source passes to them; the entry
points of a handler are keyed by the path of the library it was created from. -/
structure HostEnv where
  scanned : List PluginMetadata
  libLoadOk : String → Bool
  hasCreateSymbol : String → Bool
  hasDestroySymbol : String → Bool
  createNull : String → Bool
  init_status : String → Int
  on_mount_status : String → Int
  on_dispose_status : String → Int
  on_connect_status : String → Int
  on_disconnect_status : String → Int
  handle_message : String → String → Int × Option String
  update_ui : String → Context → Ui → Int × Ui

/-- Registry lookup (`instances.get(plugin_id)` on the source's `HashMap`). -/
def rLookup (l : List (String × PluginInstance)) (k : String) :
    Option PluginInstance :=
  match l with
  | [] => none
  | (k2, v) :: rest => if k2 = k then some v else rLookup rest k

/-- In-place modification of an existing registry entry (the effect of mutating
through `instances.get_mut(plugin_id)`). -/
def rUpdate (l : List (String × PluginInstance)) (k : String)
    (f : PluginInstance → PluginInstance) : List (String × PluginInstance) :=
  match l with
  | [] => []
  | (k2, v) :: rest =>
    if k2 = k then (k2, f v) :: rest else (k2, v) :: rUpdate rest k f

/-- Registry insertion (`instances.insert(plugin_id, instance)`): replaces the
entry when the key is present, otherwise adds it. -/
def rInsert (l : List (String × PluginInstance)) (k : String)
    (v : PluginInstance) : List (String × PluginInstance) :=
  match l with
  | [] => [(k, v)]
  | (k2, v2) :: rest =>
    if k2 = k then (k2, v) :: rest else (k2, v2) :: rInsert rest k v

/-- Translation of `PluginManager::find_plugin_metadata`: scan the loader's
plugin list and return the first metadata whose id matches. -/
def find_plugin_metadata (env : HostEnv) (plugin_id : String) :
    Except String PluginMetadata :=
  match env.scanned.find? (fun p => p.id = plugin_id) with
  | some md => Except.ok md
  | none => Except.error ("插件 " ++ plugin_id ++ " 未找到")

/-- Translation of `PluginManager::dispose_plugin`.  Returns the source's
`Result<String, String>`, the successor manager state, and the trace of calls
made into the plugin. -/
def dispose_plugin (env : HostEnv) (s : MState) (plugin_id : String) :
    Except String String × MState × List Event :=
  match rLookup s.instances plugin_id with
  | none => (Except.error ("插件 " ++ plugin_id ++ " 未找到"), s, [])
  | some inst =>
    if inst.is_mounted = false then
      (Except.ok ("插件 " ++ inst.metadata.name ++ " 已经卸载"), s, [])
    else
      -- disconnect first when connected; the on_disconnect result is discarded
      let evs1 : List Event :=
        if inst.is_connected then [Event.onDisconnectCall plugin_id] else []
      let dispose_result := env.on_dispose_status inst.libPath
      let evs2 := evs1 ++ [Event.onDisposeCall plugin_id]
      -- destroy entry point, when the symbol resolves in the instance's library
      let evs3 := evs2 ++
        (if env.hasDestroySymbol inst.libPath then [Event.destroyCall plugin_id] else [])
      let inst2 := { inst with is_connected := false, is_mounted := false }
      let s2 : MState :=
        { instances := rUpdate s.instances plugin_id (fun _ => inst2),
          current := if s.current = some plugin_id then none else s.current }
      if dispose_result = 0 then
        (Except.ok ("插件 " ++ inst.metadata.name ++ " 卸载成功"), s2, evs3)
      else
        (Except.ok ("插件 " ++ inst.metadata.name ++ " 卸载完成，但有警告: 插件卸载失败"),
          s2, evs3)

/-- Translation of the prelude of `PluginManager::mount_plugin` (lines 151–163):
when another plugin is current and differs from the one being mounted, dispose
it first; a dispose failure is logged and ignored. -/
def mount_prelude (env : HostEnv) (s : MState) (plugin_id : String) :
    MState × List Event :=
  match s.current with
  | some current_id =>
    if current_id ≠ plugin_id then
      let out := dispose_plugin env s current_id
      (out.2.1, out.2.2)
    else (s, [])
  | none => (s, [])

/-- Translation of the load-and-mount path of `PluginManager::mount_plugin`
(lines 175–283), taken when the plugin is not already mounted: resolve
metadata and its library path, load the library, resolve the create symbol,
create the handler, run `initialize` (tearing down via the destroy symbol on a
non-zero status), run `on_mount`, perform the seeding `update_ui` render pass,
and either insert the new mounted instance or tear down and fail. -/
def mount_fresh (env : HostEnv) (s1 : MState) (plugin_id : String) :
    Except String String × MState × List Event :=
  match find_plugin_metadata env plugin_id with
  | Except.error e => (Except.error e, s1, [])
  | Except.ok plugin_metadata =>
    match plugin_metadata.library_path with
    | none =>
      (Except.error ("插件 " ++ plugin_id ++ " 没有找到动态库文件"), s1, [])
    | some library_path =>
      if env.libLoadOk library_path = false then
        (Except.error "加载动态库失败", s1, [])
      else if env.hasCreateSymbol library_path = false then
        (Except.error "找不到插件创建函数", s1, [])
      else if env.createNull library_path then
        (Except.error "插件创建失败", s1, [])
      else
        let evs1 : List Event := [Event.initCall plugin_id]
        if env.init_status library_path ≠ 0 then
          let evs2 := evs1 ++
            (if env.hasDestroySymbol library_path then [Event.destroyCall plugin_id] else [])
          (Except.error "插件初始化失败", s1, evs2)
        else
          let mount_result := env.on_mount_status library_path
          let evs2 := evs1 ++ [Event.onMountCall plugin_id]
          -- UI initialization and seeding render pass (lines 230–252); the
          -- source performs it before inspecting `mount_result`
          let context := Context.new plugin_id
          let ui0 := Ui.new plugin_id
          let ui1 := (env.update_ui library_path context ui0).2
          let evs3 := evs2 ++ [Event.updateUiCall plugin_id]
          let ui_data := serializeComponents ui1.get_components
          if mount_result = 0 then
            let newInst : PluginInstance :=
              { metadata := plugin_metadata, libPath := library_path,
                is_mounted := true, is_connected := false,
                ui_data := some ui_data, ui_instance := some ui1 }
            (Except.ok ("插件 " ++ plugin_metadata.name ++ " 挂载成功"),
              { instances := rInsert s1.instances plugin_id newInst,
                current := some plugin_id }, evs3)
          else
            let evs4 := evs3 ++
              (if env.hasDestroySymbol library_path then [Event.destroyCall plugin_id] else [])
            (Except.error "插件挂载失败: 插件挂载失败", s1, evs4)

/-- Translation of `PluginManager::mount_plugin`: dispose a differing current
plugin, short-circuit when the plugin is already mounted (setting it current),
otherwise run the load-and-mount path. -/
def mount_plugin (env : HostEnv) (s : MState) (plugin_id : String) :
    Except String String × MState × List Event :=
  let pre := mount_prelude env s plugin_id
  let s1 := pre.1
  match rLookup s1.instances plugin_id with
  | some inst =>
    if inst.is_mounted then
      (Except.ok ("插件 " ++ inst.metadata.name ++ " 已经挂载"),
        { s1 with current := some plugin_id }, pre.2)
    else
      let out := mount_fresh env s1 plugin_id
      (out.1, out.2.1, pre.2 ++ out.2.2)
  | none =>
    let out := mount_fresh env s1 plugin_id
    (out.1, out.2.1, pre.2 ++ out.2.2)

/-- Translation of `PluginManager::connect_plugin`. -/
def connect_plugin (env : HostEnv) (s : MState) (plugin_id : String) :
    Except String String × MState × List Event :=
  match rLookup s.instances plugin_id with
  | none => (Except.error ("插件 " ++ plugin_id ++ " 未找到"), s, [])
  | some inst =>
    if inst.is_mounted = false then
      (Except.error ("插件 " ++ inst.metadata.name ++ " 未挂载"), s, [])
    else if inst.is_connected then
      (Except.ok ("插件 " ++ inst.metadata.name ++ " 已经连接"), s, [])
    else
      let connect_result := env.on_connect_status inst.libPath
      if connect_result = 0 then
        (Except.ok ("插件 " ++ inst.metadata.name ++ " 连接成功"),
          { s with instances :=
              rUpdate s.instances plugin_id (fun i => { i with is_connected := true }) },
          [Event.onConnectCall plugin_id])
      else
        (Except.error "插件连接失败: 插件连接失败", s, [Event.onConnectCall plugin_id])

/-- Translation of `PluginManager::disconnect_plugin`: the connected flag is
cleared regardless of the `on_disconnect` result, which only selects between
the pure-success and the warning message. -/
def disconnect_plugin (env : HostEnv) (s : MState) (plugin_id : String) :
    Except String String × MState × List Event :=
  match rLookup s.instances plugin_id with
  | none => (Except.error ("插件 " ++ plugin_id ++ " 未找到"), s, [])
  | some inst =>
    if inst.is_mounted = false then
      (Except.error ("插件 " ++ inst.metadata.name ++ " 未挂载"), s, [])
    else if inst.is_connected = false then
      (Except.ok ("插件 " ++ inst.metadata.name ++ " 已经断开连接"), s, [])
    else
      let disconnect_result := env.on_disconnect_status inst.libPath
      let s2 : MState :=
        { s with instances :=
            rUpdate s.instances plugin_id (fun i => { i with is_connected := false }) }
      if disconnect_result = 0 then
        (Except.ok ("插件 " ++ inst.metadata.name ++ " 断开连接成功"), s2,
          [Event.onDisconnectCall plugin_id])
      else
        (Except.ok ("插件 " ++ inst.metadata.name ++ " 断开连接完成，但有警告: 插件断开连接失败"),
          s2, [Event.onDisconnectCall plugin_id])

/-- Translation of `PluginManager::get_plugin_status`. -/
def get_plugin_status (s : MState) (plugin_id : String) : Option (Bool × Bool) :=
  (rLookup s.instances plugin_id).map (fun i => (i.is_mounted, i.is_connected))

/-- Translation of `PluginManager::get_current_plugin`. -/
def get_current_plugin (s : MState) : Option String :=
  s.current

/-- Translation of `PluginManager::send_message_to_current_plugin`.  A message
containing an interior NUL byte makes `CString::new` fail with the
encoding error; otherwise `handle_message` returns a status and an optional
response pointer (`none` models a null out-pointer), and the response is
returned only for status 0 with a non-null pointer. -/
def send_message_to_current_plugin (env : HostEnv) (s : MState)
    (message : String) : Except String String :=
  match s.current with
  | none => Except.error "没有活跃的插件"
  | some plugin_id =>
    match rLookup s.instances plugin_id with
    | none => Except.error "当前插件未找到"
    | some inst =>
      if inst.is_mounted = false then
        Except.error "当前插件未挂载"
      else if message.data.contains (Char.ofNat 0) then
        Except.error "消息转换失败"
      else
        let out := env.handle_message inst.libPath message
        if out.1 = 0 then
          match out.2 with
          | some response => Except.ok response
          | none => Except.error "插件处理消息失败"
        else
          Except.error "插件处理消息失败"

/-- Translation of `PluginManager::get_plugin_ui`: re-serializes the UI
instance's components, stores the result as the instance's UI snapshot, and
returns it. -/
def get_plugin_ui (s : MState) (plugin_id : String) :
    Except String String × MState :=
  match rLookup s.instances plugin_id with
  | none => (Except.error "插件未找到", s)
  | some inst =>
    if inst.is_mounted = false then (Except.error "插件未挂载", s)
    else
      match inst.ui_instance with
      | none => (Except.error "UI实例未找到", s)
      | some ui =>
        let ui_data := serializeComponents ui.get_components
        (Except.ok ui_data,
          { s with instances :=
              rUpdate s.instances plugin_id (fun i => { i with ui_data := some ui_data }) })

/-- Translation of `PluginManager::handle_plugin_ui_update`: build a context
carrying the single-pair event data, clear only the builder's components,
re-invoke `update_ui`, and on a zero status store the new snapshot, clear the
builder's event state and notify the frontend; the call returns `Ok(true)` in
both cases.  The builder mutations persist through the shared `Arc<Mutex<Ui>>`
even when the update fails. -/
def handle_plugin_ui_update (env : HostEnv) (s : MState)
    (plugin_id component_id value : String) :
    Except String Bool × MState × List Event :=
  match rLookup s.instances plugin_id with
  | none => (Except.error "插件未找到", s, [])
  | some inst =>
    if inst.is_mounted = false then (Except.error "插件未挂载", s, [])
    else
      match inst.ui_instance with
      | none => (Except.error "插件未找到", s, [])
      | some ui0 =>
        let context := Context.with_ui_event_data plugin_id [(component_id, value)]
        let ui1 := ui0.clear_components_only
        let out := env.update_ui inst.libPath context ui1
        if out.1 = 0 then
          let ui_data := serializeComponents out.2.get_components
          let ui3 := out.2.clear_events
          let insts2 := rUpdate s.instances plugin_id
            (fun i => { i with ui_data := some ui_data, ui_instance := some ui3 })
          (Except.ok true, { s with instances := insts2 },
            [Event.updateUiCall plugin_id, Event.notifyFrontend plugin_id])
        else
          let insts2 := rUpdate s.instances plugin_id
            (fun i => { i with ui_instance := some out.2 })
          (Except.ok true, { s with instances := insts2 },
            [Event.updateUiCall plugin_id])

/-- Translation of `PluginManager::handle_plugin_ui_event`: first ask the UI
builder whether it recognizes `component_id` as an event target; when it does
not, return `Ok(false)` without touching the plugin.  When it does, feed the
event to the builder again (line 578 of the source), clear only the components,
re-invoke `update_ui`, and on a zero status store the snapshot, clear the event
state and notify the frontend; the result is `Ok(event_handled)`. -/
def handle_plugin_ui_event (env : HostEnv) (s : MState)
    (plugin_id component_id value : String) :
    Except String Bool × MState × List Event :=
  match rLookup s.instances plugin_id with
  | none => (Except.error "插件未找到", s, [])
  | some inst =>
    if inst.is_mounted = false then (Except.error "插件未挂载", s, [])
    else
      match inst.ui_instance with
      | none => (Except.ok false, s, [])
      | some ui0 =>
        let first := ui0.handle_ui_event component_id value
        if first.1 then
          let context := Context.with_ui_event_data plugin_id [(component_id, value)]
          let uiB := (first.2.handle_ui_event component_id value).2
          let uiC := uiB.clear_components_only
          let out := env.update_ui inst.libPath context uiC
          if out.1 = 0 then
            let ui_data := serializeComponents out.2.get_components
            let uiE := out.2.clear_events
            let insts2 := rUpdate s.instances plugin_id
              (fun i => { i with ui_data := some ui_data, ui_instance := some uiE })
            (Except.ok true, { s with instances := insts2 },
              [Event.updateUiCall plugin_id, Event.notifyFrontend plugin_id])
          else
            let insts2 := rUpdate s.instances plugin_id
              (fun i => { i with ui_instance := some out.2 })
            (Except.ok true, { s with instances := insts2 },
              [Event.updateUiCall plugin_id])
        else
          let insts2 := rUpdate s.instances plugin_id
            (fun i => { i with ui_instance := some first.2 })
          (Except.ok false, { s with instances := insts2 }, [])

/-- Translation of one iteration of the cleanup loop in
`PluginManager::cleanup_all_plugins`: re-fetch the instance, and when it is
still mounted disconnect if connected, call `on_dispose` (result ignored),
invoke the destroy entry point when the symbol resolves, and clear the mounted
flag. -/
def cleanup_step (env : HostEnv) (s : MState) (plugin_id : String) :
    MState × List Event :=
  match rLookup s.instances plugin_id with
  | none => (s, [])
  | some inst =>
    if inst.is_mounted = false then (s, [])
    else
      let evs1 : List Event :=
        if inst.is_connected then [Event.onDisconnectCall plugin_id] else []
      let evs2 := evs1 ++ [Event.onDisposeCall plugin_id]
      let evs3 := evs2 ++
        (if env.hasDestroySymbol inst.libPath then [Event.destroyCall plugin_id] else [])
      let insts2 := rUpdate s.instances plugin_id
        (fun i => { i with is_connected := false, is_mounted := false })
      ({ s with instances := insts2 }, evs3)

/-- The cleanup loop of `PluginManager::cleanup_all_plugins` over the collected
list of mounted plugin ids. -/
def cleanup_list (env : HostEnv) (s : MState) : List String → MState × List Event
  | [] => (s, [])
  | plugin_id :: rest =>
    let step := cleanup_step env s plugin_id
    let out := cleanup_list env step.1 rest
    (out.1, step.2 ++ out.2)

/-- Translation of `PluginManager::cleanup_all_plugins`: collect the ids of the
currently mounted instances, clean each up, then clear the current plugin. -/
def cleanup_all_plugins (env : HostEnv) (s : MState) : MState × List Event :=
  let mounted_plugin_ids :=
    (s.instances.filter (fun p => p.2.is_mounted)).map (fun p => p.1)
  let out := cleanup_list env s mounted_plugin_ids
  ({ out.1 with current := none }, out.2)

/-! ## Shared concrete test fixtures -/
/-- Environment in which every external operation succeeds: the library loads,
both symbols resolve, the handler is non-null, every entry point returns 0,
`handle_message` echoes its input, and `update_ui` leaves the builder as
given. -/
def baseEnv : HostEnv :=
  { scanned := [],
    libLoadOk := fun _ => true,
    hasCreateSymbol := fun _ => true,
    hasDestroySymbol := fun _ => true,
    createNull := fun _ => false,
    init_status := fun _ => 0,
    on_mount_status := fun _ => 0,
    on_dispose_status := fun _ => 0,
    on_connect_status := fun _ => 0,
    on_disconnect_status := fun _ => 0,
    handle_message := fun _ m => (0, some ("OK:" ++ m)),
    update_ui := fun _ _ ui => (0, ui) }

/-- Metadata of a test plugin `p` with a resolved library path. -/
def mdP : PluginMetadata :=
  { id := "p", name := "P", version := "1.0", library_path := some "libp" }

/-- A mounted, connected instance of plugin `p`. -/
def instPConnected : PluginInstance :=
  { metadata := mdP, libPath := "libp", is_mounted := true, is_connected := true,
    ui_data := none, ui_instance := none }

/-- A mounted, not-connected instance of plugin `p`. -/
def instPMounted : PluginInstance :=
  { metadata := mdP, libPath := "libp", is_mounted := true, is_connected := false,
    ui_data := none, ui_instance := none }

/-! ## C4: dispose error/no-op/teardown behaviour -/
/-- Environment for the C4 counterexample: `on_disconnect` fails with status 7,
everything else succeeds. -/
def envC4 : HostEnv := { baseEnv with on_disconnect_status := fun _ => 7 }

/-- State for the C4 counterexample: plugin `p` is mounted and connected, and
current. -/
def stC4 : MState := { instances := [("p", instPConnected)], current := some "p" }

/-! ## Mount lemmas -/
/-- The instance inserted by a successful fresh mount: mounted, not connected,
with the UI snapshot and builder produced by the seeding render pass. -/
def mountedInstance (env : HostEnv) (md : PluginMetadata) (path : String)
    (pid : String) : PluginInstance :=
  { metadata := md, libPath := path, is_mounted := true, is_connected := false,
    ui_data := some (serializeComponents
      ((env.update_ui path (Context.new pid) (Ui.new pid)).2.get_components)),
    ui_instance := some ((env.update_ui path (Context.new pid) (Ui.new pid)).2) }

/-! ## Further shared fixtures -/
/-- The empty manager state: no registry entries, no current plugin. -/
def st0 : MState := { instances := [], current := none }

/-- Environment whose scan finds plugin `p` and in which everything
succeeds. -/
def envMount : HostEnv := { baseEnv with scanned := [mdP] }

/-! ## C1: status after a successful mount -/
/-- State for the C1 counterexample: plugin `p` is mounted, connected and
current. -/
def stC1 : MState := { instances := [("p", instPConnected)], current := some "p" }

/-! ## C2: the seeding render pass during mount -/
/-- Environment for the C2 counterexample: the scan finds `p`, everything
succeeds except `on_mount`, which fails with status 3. -/
def envC2 : HostEnv :=
  { baseEnv with scanned := [mdP], on_mount_status := fun _ => 3 }

/-- State for the C8 witness: plugin `p` mounted (not connected) and
current. -/
def stC8 : MState := { instances := [("p", instPMounted)], current := some "p" }

/-! ## C10: handle_plugin_ui_update on a failing update_ui -/
/-- The status and builder returned by the `update_ui` invocation that
`handle_plugin_ui_update` performs: context carrying the single event pair,
builder with components cleared and event state preserved. -/
def updateCallOut (env : HostEnv) (inst : PluginInstance) (pid cid v : String)
    (ui : Ui) : Int × Ui :=
  env.update_ui inst.libPath (Context.with_ui_event_data pid [(cid, v)])
    ui.clear_components_only

/-- Builder and environment for the C10 witness: a failing `update_ui`
(status 1) on a mounted plugin with a registered event target and pending
event state. -/
def uiPending : Ui :=
  { plugin_id := "p", components := ["lbl"], event_targets := ["btn1"],
    event_state := [("btn1", "click")] }

/-- Instance of `p` carrying `uiPending` as its UI builder. -/
def instPUi : PluginInstance :=
  { metadata := mdP, libPath := "libp", is_mounted := true, is_connected := false,
    ui_data := some "[lbl]", ui_instance := some uiPending }

/-- Environment whose `update_ui` always fails with status 1, leaving the
builder as it received it. -/
def envUiFail : HostEnv := { baseEnv with update_ui := fun _ _ ui => (1, ui) }

/-- State for the C10 witness: plugin `p` mounted with a UI instance. -/
def stUi : MState := { instances := [("p", instPUi)], current := some "p" }

/-! ## C6: handle_plugin_ui_event recognition and notification -/
/-- The status and builder returned by the `update_ui` invocation that
`handle_plugin_ui_event` performs on a recognized event: the event is fed to
the builder twice (once by the recognition probe, once before rendering, as in
the source), then the components are cleared. -/
def eventCallOut (env : HostEnv) (inst : PluginInstance) (pid cid v : String)
    (ui : Ui) : Int × Ui :=
  env.update_ui inst.libPath (Context.with_ui_event_data pid [(cid, v)])
    (((ui.handle_ui_event cid v).2.handle_ui_event cid v).2.clear_components_only)

/-- Environment for the C6 counterexample: `update_ui` fails with status 1. -/
def envC6 : HostEnv := { baseEnv with update_ui := fun _ _ ui => (1, ui) }

/-- Builder for the C6 counterexample: `btn1` is a registered event target. -/
def uiC6 : Ui :=
  { plugin_id := "p", components := [], event_targets := ["btn1"], event_state := [] }

/-- Instance of `p` carrying `uiC6`. -/
def instC6 : PluginInstance :=
  { metadata := mdP, libPath := "libp", is_mounted := true, is_connected := false,
    ui_data := some "[]", ui_instance := some uiC6 }

/-- State for the C6 counterexample. -/
def stC6 : MState := { instances := [("p", instC6)], current := some "p" }

/-! ## C5: the is_connected implies is_mounted invariant -/
/-- The flag invariant of spec §3: no registry entry is connected while
unmounted. -/
def FlagsInv (s : MState) : Prop :=
  ∀ e ∈ s.instances, e.2.is_connected = true → e.2.is_mounted = true

/-- Sufficient condition on an in-place registry update to preserve the flag
invariant: the updated value of the looked-up instance satisfies the
implication whenever the old one did. -/
def PreservingUpd (s : MState) (k : String)
    (f : PluginInstance → PluginInstance) : Prop :=
  ∀ w, rLookup s.instances k = some w →
    (w.is_connected = true → w.is_mounted = true) →
    ((f w).is_connected = true → (f w).is_mounted = true)

/-- Metadata of a second test plugin `q`. -/
def mdQ : PluginMetadata :=
  { id := "q", name := "Q", version := "1.0", library_path := some "libq" }

/-- A mounted, not-connected instance of plugin `q`. -/
def instQMounted : PluginInstance :=
  { metadata := mdQ, libPath := "libq", is_mounted := true, is_connected := false,
    ui_data := none, ui_instance := none }

/-- Environment for the C7 witness: every `on_dispose` fails with status 5. -/
def envC7 : HostEnv := { baseEnv with on_dispose_status := fun _ => 5 }

/-- State for the C7 witness: `p` mounted and connected, `q` mounted, `p`
current. -/
def stC7 : MState :=
  { instances := [("p", instPConnected), ("q", instQMounted)], current := some "p" }

/-! ## Registry lemmas -/
theorem rLookup_rUpdate_self (l : List (String × PluginInstance)) (k : String)
    (f : PluginInstance → PluginInstance) :
    rLookup (rUpdate l k f) k = (rLookup l k).map f := by
  induction l with
  | nil => rfl
  | cons hd tl ih =>
    obtain ⟨k2, v⟩ := hd
    by_cases h : k2 = k
    · simp [rUpdate, rLookup, h]
    · simp [rUpdate, rLookup, h, ih]

theorem rLookup_rUpdate_ne (l : List (String × PluginInstance)) (k k2 : String)
    (f : PluginInstance → PluginInstance) (h : k ≠ k2) :
    rLookup (rUpdate l k f) k2 = rLookup l k2 := by
  induction l with
  | nil => rfl
  | cons hd tl ih =>
    obtain ⟨k3, v⟩ := hd
    by_cases h3 : k3 = k
    · subst h3
      simp [rUpdate, rLookup, h]
    · simp only [rUpdate, rLookup, if_neg h3]
      by_cases h4 : k3 = k2
      · simp [rLookup, h4]
      · simp [rLookup, h4, ih]

theorem rLookup_rInsert_self (l : List (String × PluginInstance)) (k : String)
    (v : PluginInstance) :
    rLookup (rInsert l k v) k = some v := by
  induction l with
  | nil => simp [rInsert, rLookup]
  | cons hd tl ih =>
    obtain ⟨k2, v2⟩ := hd
    by_cases h : k2 = k
    · simp [rInsert, rLookup, h]
    · simp [rInsert, rLookup, h, ih]

theorem rLookup_rInsert_ne (l : List (String × PluginInstance)) (k k2 : String)
    (v : PluginInstance) (h : k ≠ k2) :
    rLookup (rInsert l k v) k2 = rLookup l k2 := by
  induction l with
  | nil => simp [rInsert, rLookup, h]
  | cons hd tl ih =>
    obtain ⟨k3, v3⟩ := hd
    by_cases h3 : k3 = k
    · subst h3
      simp [rInsert, rLookup, h]
    · simp only [rInsert, rLookup, if_neg h3]
      by_cases h4 : k3 = k2
      · simp [rLookup, h4]
      · simp [rLookup, h4, ih]

/-! ## Dispose lemmas -/
theorem dispose_keeps_other_entries (env : HostEnv) (s : MState) (pid k : String)
    (hk : pid ≠ k) :
    rLookup (dispose_plugin env s pid).2.1.instances k = rLookup s.instances k := by
  unfold dispose_plugin
  rcases h : rLookup s.instances pid with _ | inst
  · rfl
  · by_cases hm : inst.is_mounted = false
    · simp [hm]
    · simp only [hm, if_false]
      split_ifs <;> simp [rLookup_rUpdate_ne _ _ _ _ hk]

theorem dispose_events_shape (env : HostEnv) (s : MState) (pid : String) :
    ∀ e ∈ (dispose_plugin env s pid).2.2,
      e = Event.onDisconnectCall pid ∨ e = Event.onDisposeCall pid ∨
        e = Event.destroyCall pid := by
  unfold dispose_plugin
  rcases h : rLookup s.instances pid with _ | inst
  · simp
  · by_cases hm : inst.is_mounted = false
    · simp [hm]
    · simp only [hm, if_false]
      split_ifs <;> intro e he <;> simp_all <;> tauto

/-- C4 counterexample: disposing the mounted, connected plugin `p` while its
`on_disconnect` returns the non-zero status 7 yields the pure success message
`插件 P 卸载成功` with no warning, contradicting the claim that the message
carries a warning when `on_disconnect` returned non-zero. -/
theorem c4_counterexample :
    envC4.on_disconnect_status "libp" = 7 ∧
    rLookup stC4.instances "p" = some instPConnected ∧
    instPConnected.is_connected = true ∧
    envC4.on_dispose_status "libp" = 0 ∧
    (dispose_plugin envC4 stC4 "p").1 = Except.ok "插件 P 卸载成功" :=
  ⟨rfl, rfl, rfl, rfl, rfl⟩

/-- C4 (amended): `dispose(id)` returns an error iff `id` has no registry
entry; on an unmounted entry it is a no-op success; on a mounted entry it
always calls `on_dispose` once and the destroy entry point (exactly when the
destroy symbol resolves), sets `is_mounted = false` (also clearing the
connected flag), clears CurrentPlugin when it was `id`, and returns success —
with a warning in the message exactly when `on_dispose` returned non-zero (the
`on_disconnect` result during dispose is discarded and never affects the
message). -/
theorem dispose_plugin_spec (env : HostEnv) (s : MState) (pid : String) :
    (rLookup s.instances pid = none →
      dispose_plugin env s pid = (Except.error ("插件 " ++ pid ++ " 未找到"), s, []))
    ∧ (∀ inst, rLookup s.instances pid = some inst → inst.is_mounted = false →
      dispose_plugin env s pid
        = (Except.ok ("插件 " ++ inst.metadata.name ++ " 已经卸载"), s, []))
    ∧ (∀ inst, rLookup s.instances pid = some inst → inst.is_mounted = true →
      (dispose_plugin env s pid).2.2.count (Event.onDisposeCall pid) = 1
      ∧ ((dispose_plugin env s pid).2.2.count (Event.destroyCall pid)
          = if env.hasDestroySymbol inst.libPath then 1 else 0)
      ∧ rLookup (dispose_plugin env s pid).2.1.instances pid
          = some { inst with is_connected := false, is_mounted := false }
      ∧ (dispose_plugin env s pid).2.1.current
          = (if s.current = some pid then none else s.current)
      ∧ (dispose_plugin env s pid).1
          = Except.ok (if env.on_dispose_status inst.libPath = 0
              then "插件 " ++ inst.metadata.name ++ " 卸载成功"
              else "插件 " ++ inst.metadata.name ++ " 卸载完成，但有警告: 插件卸载失败")) := by
  refine ⟨?_, ?_, ?_⟩
  · intro h
    unfold dispose_plugin
    rw [h]
  · intro inst h hm
    unfold dispose_plugin
    rw [h]
    simp [hm]
  · intro inst h hm
    unfold dispose_plugin
    rw [h]
    simp only [hm, Bool.true_eq_false, if_false]
    split_ifs <;>
      simp_all [List.count_append, List.count_cons, List.count_nil,
        rLookup_rUpdate_self]

/-- C4 witness: the amended dispose theorem applied to the concrete mounted,
connected plugin `p`. -/
theorem dispose_plugin_spec_witness :
    (dispose_plugin envC4 stC4 "p").1 = Except.ok "插件 P 卸载成功" := by
  have h := ((dispose_plugin_spec envC4 stC4 "p").2.2 instPConnected rfl rfl).2.2.2.2
  rw [h]
  rfl

theorem mount_fresh_after_init_eq (env : HostEnv) (s1 : MState) (pid : String)
    (md : PluginMetadata) (path : String)
    (h1 : env.scanned.find? (fun p => p.id = pid) = some md)
    (h2 : md.library_path = some path)
    (h3 : env.libLoadOk path = true)
    (h4 : env.hasCreateSymbol path = true)
    (h5 : env.createNull path = false)
    (h6 : env.init_status path = 0) :
    mount_fresh env s1 pid =
      (if env.on_mount_status path = 0
        then (Except.ok ("插件 " ++ md.name ++ " 挂载成功"),
          MState.mk (rInsert s1.instances pid (mountedInstance env md path pid)) (some pid),
          [Event.initCall pid, Event.onMountCall pid, Event.updateUiCall pid])
        else (Except.error "插件挂载失败: 插件挂载失败", s1,
          [Event.initCall pid, Event.onMountCall pid, Event.updateUiCall pid] ++
            (if env.hasDestroySymbol path then [Event.destroyCall pid] else []))) := by
  unfold mount_fresh find_plugin_metadata
  rw [h1]
  simp only [h2, h3, h4, h5, h6]
  split_ifs with hm <;> simp_all [mountedInstance, Ui.get_components]

theorem mount_fresh_shape (env : HostEnv) (s1 : MState) (pid : String) :
    (∃ e, (mount_fresh env s1 pid).1 = Except.error e ∧
      (mount_fresh env s1 pid).2.1 = s1) ∨
    (∃ md path, (mount_fresh env s1 pid).1
        = Except.ok ("插件 " ++ md.name ++ " 挂载成功") ∧
      (mount_fresh env s1 pid).2.1
        = MState.mk (rInsert s1.instances pid (mountedInstance env md path pid))
            (some pid)) := by
  unfold mount_fresh
  rcases hf : find_plugin_metadata env pid with e | md
  · simp
  · rcases hp : md.library_path with _ | path
    · simp [hp]
    · simp only [hp]
      by_cases h3 : env.libLoadOk path = false
      · simp [h3]
      · simp only [h3, if_false]
        by_cases h4 : env.hasCreateSymbol path = false
        · simp [h4]
        · simp only [h4, if_false]
          by_cases h5 : env.createNull path
          · simp [h5]
          · simp only [h5, if_false]
            by_cases h6 : env.init_status path ≠ 0
            · simp [h6]
            · simp only [h6, if_false]
              by_cases h7 : env.on_mount_status path = 0
              · refine Or.inr ⟨md, path, ?_⟩
                simp [h7, mountedInstance, Ui.get_components]
              · simp [h7]

theorem mount_fresh_error_state (env : HostEnv) (s1 : MState) (pid : String)
    (e : String) (he : (mount_fresh env s1 pid).1 = Except.error e) :
    (mount_fresh env s1 pid).2.1 = s1 := by
  rcases mount_fresh_shape env s1 pid with ⟨e2, _, hs⟩ | ⟨md, path, hok, _⟩
  · exact hs
  · rw [hok] at he
    simp at he

theorem mount_fresh_ok_state (env : HostEnv) (s1 : MState) (pid : String)
    (m : String) (hok : (mount_fresh env s1 pid).1 = Except.ok m) :
    (mount_fresh env s1 pid).2.1.current = some pid ∧
      ∃ inst, rLookup (mount_fresh env s1 pid).2.1.instances pid = some inst ∧
        inst.is_mounted = true ∧ inst.is_connected = false := by
  rcases mount_fresh_shape env s1 pid with ⟨e2, he, _⟩ | ⟨md, path, _, hs⟩
  · rw [he] at hok
    simp at hok
  · rw [hs]
    exact ⟨rfl, mountedInstance env md path pid, rLookup_rInsert_self _ _ _, rfl, rfl⟩

theorem mount_prelude_keeps_pid (env : HostEnv) (s : MState) (pid : String) :
    rLookup (mount_prelude env s pid).1.instances pid = rLookup s.instances pid := by
  unfold mount_prelude
  rcases hcur : s.current with _ | cid
  · rfl
  · by_cases hne : cid = pid
    · simp [hne]
    · simp only [ne_eq, hne, not_false_eq_true, if_true]
      exact dispose_keeps_other_entries env s cid pid hne

theorem mount_prelude_count_updateUi (env : HostEnv) (s : MState) (pid : String) :
    (mount_prelude env s pid).2.count (Event.updateUiCall pid) = 0 := by
  rw [List.count_eq_zero]
  intro hmem
  unfold mount_prelude at hmem
  rcases hcur : s.current with _ | cid
  · rw [hcur] at hmem
    simp at hmem
  · rw [hcur] at hmem
    by_cases hne : cid = pid
    · simp [hne] at hmem
    · simp only [ne_eq, hne, not_false_eq_true, if_true] at hmem
      rcases dispose_events_shape env s cid _ hmem with h | h | h <;> simp_all

/-- C1 counterexample: mounting `p` while `p` is already mounted and connected
returns success (the already-mounted message), yet afterwards
`status(p) = (mounted=true, connected=TRUE)`, contradicting the claim that a
successful `mount(p)` always leaves `is_connected = false`. -/
theorem c1_counterexample :
    (mount_plugin envMount stC1 "p").1 = Except.ok "插件 P 已经挂载"
    ∧ get_plugin_status (mount_plugin envMount stC1 "p").2.1 "p" = some (true, true)
    ∧ get_current_plugin (mount_plugin envMount stC1 "p").2.1 = some "p" :=
  ⟨rfl, rfl, rfl⟩

/-- C1 (amended): whenever `mount(p)` returns success, afterwards the registry
entry for `p` has `is_mounted = true` and the current plugin is `Some p`; and
when `p` was not already mounted before the call, additionally
`is_connected = false` (the already-mounted no-op path preserves an existing
connection instead). -/
theorem mount_success_status (env : HostEnv) (s : MState) (pid m : String)
    (hok : (mount_plugin env s pid).1 = Except.ok m) :
    (mount_plugin env s pid).2.1.current = some pid
    ∧ (∃ inst, rLookup (mount_plugin env s pid).2.1.instances pid = some inst
        ∧ inst.is_mounted = true)
    ∧ ((∀ inst0, rLookup s.instances pid = some inst0 → inst0.is_mounted = false) →
        ∃ inst, rLookup (mount_plugin env s pid).2.1.instances pid = some inst
          ∧ inst.is_mounted = true ∧ inst.is_connected = false) := by
  have hpre := mount_prelude_keeps_pid env s pid
  rcases hl : rLookup (mount_prelude env s pid).1.instances pid with _ | inst
  · have hb : mount_plugin env s pid
        = ((mount_fresh env (mount_prelude env s pid).1 pid).1,
           (mount_fresh env (mount_prelude env s pid).1 pid).2.1,
           (mount_prelude env s pid).2
             ++ (mount_fresh env (mount_prelude env s pid).1 pid).2.2) := by
      simp only [mount_plugin]
      rw [hl]
    rw [hb] at hok ⊢
    obtain ⟨hcur, inst2, hlook, hm2, hc2⟩ := mount_fresh_ok_state env _ pid m hok
    exact ⟨hcur, ⟨inst2, hlook, hm2⟩, fun _ => ⟨inst2, hlook, hm2, hc2⟩⟩
  · by_cases hm : inst.is_mounted = true
    · have hb : mount_plugin env s pid
          = (Except.ok ("插件 " ++ inst.metadata.name ++ " 已经挂载"),
             MState.mk (mount_prelude env s pid).1.instances (some pid),
             (mount_prelude env s pid).2) := by
        simp only [mount_plugin]
        rw [hl]
        simp [hm]
      rw [hb]
      refine ⟨rfl, ⟨inst, hl, hm⟩, fun hnone => ?_⟩
      have := hnone inst (hpre.symm.trans hl)
      simp [this] at hm
    · have hb : mount_plugin env s pid
          = ((mount_fresh env (mount_prelude env s pid).1 pid).1,
             (mount_fresh env (mount_prelude env s pid).1 pid).2.1,
             (mount_prelude env s pid).2
               ++ (mount_fresh env (mount_prelude env s pid).1 pid).2.2) := by
        simp only [mount_plugin]
        rw [hl]
        simp [hm]
      rw [hb] at hok ⊢
      obtain ⟨hcur, inst2, hlook, hm2, hc2⟩ := mount_fresh_ok_state env _ pid m hok
      exact ⟨hcur, ⟨inst2, hlook, hm2⟩, fun _ => ⟨inst2, hlook, hm2, hc2⟩⟩

/-- C1 witness: a fresh successful mount of `p` from the empty state. -/
theorem mount_success_status_witness :
    (mount_plugin envMount st0 "p").2.1.current = some "p"
    ∧ (∃ inst, rLookup (mount_plugin envMount st0 "p").2.1.instances "p" = some inst
        ∧ inst.is_mounted = true)
    ∧ ((∀ inst0, rLookup st0.instances "p" = some inst0 → inst0.is_mounted = false) →
        ∃ inst, rLookup (mount_plugin envMount st0 "p").2.1.instances "p" = some inst
          ∧ inst.is_mounted = true ∧ inst.is_connected = false) :=
  mount_success_status envMount st0 "p" "插件 P 挂载成功" rfl

/-! ## C3: failed mount leaves the registry entry untouched -/
/-- C3: whenever `mount_plugin` returns an error — any of the failure modes:
unknown id, missing library path, load failure, missing create symbol, null
handler, non-zero `initialize`, or non-zero `on_mount` — the registry entry
for the requested id is exactly what it was before the call (in particular no
mounted entry is inserted), and the error is the value returned. -/
theorem mount_error_keeps_registry_entry (env : HostEnv) (s : MState)
    (pid e : String) (he : (mount_plugin env s pid).1 = Except.error e) :
    rLookup (mount_plugin env s pid).2.1.instances pid = rLookup s.instances pid := by
  have hpre := mount_prelude_keeps_pid env s pid
  rcases hl : rLookup (mount_prelude env s pid).1.instances pid with _ | inst
  · have hb : mount_plugin env s pid
        = ((mount_fresh env (mount_prelude env s pid).1 pid).1,
           (mount_fresh env (mount_prelude env s pid).1 pid).2.1,
           (mount_prelude env s pid).2
             ++ (mount_fresh env (mount_prelude env s pid).1 pid).2.2) := by
      simp only [mount_plugin]
      rw [hl]
    rw [hb] at he ⊢
    rw [mount_fresh_error_state env _ pid e he]
    exact hpre
  · by_cases hm : inst.is_mounted = true
    · have hb : mount_plugin env s pid
          = (Except.ok ("插件 " ++ inst.metadata.name ++ " 已经挂载"),
             MState.mk (mount_prelude env s pid).1.instances (some pid),
             (mount_prelude env s pid).2) := by
        simp only [mount_plugin]
        rw [hl]
        simp [hm]
      rw [hb] at he
      simp at he
    · have hb : mount_plugin env s pid
          = ((mount_fresh env (mount_prelude env s pid).1 pid).1,
             (mount_fresh env (mount_prelude env s pid).1 pid).2.1,
             (mount_prelude env s pid).2
               ++ (mount_fresh env (mount_prelude env s pid).1 pid).2.2) := by
        simp only [mount_plugin]
        rw [hl]
        simp [hm]
      rw [hb] at he ⊢
      rw [mount_fresh_error_state env _ pid e he]
      exact hpre

/-- C3 witness: mounting an id the scan does not know fails and leaves the
(empty) registry unchanged. -/
theorem mount_error_keeps_registry_entry_witness :
    rLookup (mount_plugin baseEnv st0 "q").2.1.instances "q"
      = rLookup st0.instances "q" :=
  mount_error_keeps_registry_entry baseEnv st0 "q" "插件 q 未找到" rfl

/-- C2 counterexample: with `on_mount` failing (status 3), `mount(p)` fails
with the mount-failure error and yet the seeding `update_ui` render pass was
performed (it appears once in the trace), contradicting the claim that the
render pass happens only when `on_mount` returned success. -/
theorem c2_counterexample :
    envC2.on_mount_status "libp" = 3
    ∧ (mount_plugin envC2 st0 "p").1 = Except.error "插件挂载失败: 插件挂载失败"
    ∧ (mount_plugin envC2 st0 "p").2.2.count (Event.updateUiCall "p") = 1 :=
  ⟨rfl, rfl, rfl⟩

/-- C2 (amended): during a fresh mount that reaches `on_mount` (metadata and
library path resolve, the library loads, the create symbol resolves, the
handler is non-null, and `initialize` returns 0), the seeding render pass is
performed exactly once regardless of `on_mount`'s status; when `on_mount`
returns non-zero, mount additionally tears down — invoking the destroy entry
point when its symbol resolves — fails with the mount-failure error, and
inserts no registry entry for the id. -/
theorem mount_render_pass_spec (env : HostEnv) (s : MState) (pid : String)
    (md : PluginMetadata) (path : String)
    (hnm : ∀ inst0, rLookup s.instances pid = some inst0 → inst0.is_mounted = false)
    (h1 : env.scanned.find? (fun p => p.id = pid) = some md)
    (h2 : md.library_path = some path)
    (h3 : env.libLoadOk path = true)
    (h4 : env.hasCreateSymbol path = true)
    (h5 : env.createNull path = false)
    (h6 : env.init_status path = 0) :
    (mount_plugin env s pid).2.2.count (Event.updateUiCall pid) = 1
    ∧ (env.on_mount_status path ≠ 0 →
        (mount_plugin env s pid).1 = Except.error "插件挂载失败: 插件挂载失败"
        ∧ (env.hasDestroySymbol path = true →
            Event.destroyCall pid ∈ (mount_plugin env s pid).2.2)
        ∧ rLookup (mount_plugin env s pid).2.1.instances pid
            = rLookup s.instances pid) := by
  have hpre := mount_prelude_keeps_pid env s pid
  have hcnt := mount_prelude_count_updateUi env s pid
  have hfr := mount_fresh_after_init_eq env (mount_prelude env s pid).1 pid md path
    h1 h2 h3 h4 h5 h6
  have hbranch : mount_plugin env s pid
      = ((mount_fresh env (mount_prelude env s pid).1 pid).1,
         (mount_fresh env (mount_prelude env s pid).1 pid).2.1,
         (mount_prelude env s pid).2
           ++ (mount_fresh env (mount_prelude env s pid).1 pid).2.2) := by
    rcases hl : rLookup (mount_prelude env s pid).1.instances pid with _ | inst
    · simp only [mount_plugin]
      rw [hl]
    · have hm : inst.is_mounted = false := hnm inst (hpre.symm.trans hl)
      simp only [mount_plugin]
      rw [hl]
      simp [hm]
  rw [hbranch, hfr]
  by_cases h7 : env.on_mount_status path = 0
  · simp [h7, List.count_append, List.count_cons, List.count_nil, hcnt]
  · have hz : List.count (Event.updateUiCall pid)
        (if env.hasDestroySymbol path = true then [Event.destroyCall pid] else [])
        = 0 := by
      by_cases hd : env.hasDestroySymbol path = true <;> simp [hd]
    simp only [h7, if_false, List.count_append, hcnt, hz]
    refine ⟨by simp, fun _ => ⟨by simp, fun hd => ?_, hpre⟩⟩
    simp [hd]

/-- C2 witness: the amended render-pass theorem applied to the concrete
failing-`on_mount` environment. -/
theorem mount_render_pass_spec_witness :
    (mount_plugin envC2 st0 "p").2.2.count (Event.updateUiCall "p") = 1
    ∧ (envC2.on_mount_status "libp" ≠ 0 →
        (mount_plugin envC2 st0 "p").1 = Except.error "插件挂载失败: 插件挂载失败"
        ∧ (envC2.hasDestroySymbol "libp" = true →
            Event.destroyCall "p" ∈ (mount_plugin envC2 st0 "p").2.2)
        ∧ rLookup (mount_plugin envC2 st0 "p").2.1.instances "p"
            = rLookup st0.instances "p") :=
  mount_render_pass_spec envC2 st0 "p" mdP "libp" (fun _ h => nomatch h)
    rfl rfl rfl rfl rfl rfl

/-! ## C8: mounting an already-mounted plugin is an idempotent no-op -/
/-- C8: mounting `p` again while `p` is mounted and current returns the
already-mounted success message, leaves the whole manager state (registry and
current pointer) unchanged, and makes no calls into the plugin. -/
theorem mount_already_mounted_idempotent (env : HostEnv) (s : MState)
    (pid : String) (inst : PluginInstance)
    (h : rLookup s.instances pid = some inst) (hm : inst.is_mounted = true)
    (hc : s.current = some pid) :
    mount_plugin env s pid
      = (Except.ok ("插件 " ++ inst.metadata.name ++ " 已经挂载"), s, []) := by
  have hstate : ({ s with current := some pid } : MState) = s := by
    cases s
    simp_all
  simp only [mount_plugin, mount_prelude, hc]
  simp only [ne_eq, not_true_eq_false, if_false]
  rw [h]
  simp [hm, hstate]

/-- C8 witness: the idempotence theorem applied to the concrete mounted
plugin `p`. -/
theorem mount_already_mounted_idempotent_witness :
    mount_plugin baseEnv stC8 "p" = (Except.ok "插件 P 已经挂载", stC8, []) :=
  mount_already_mounted_idempotent baseEnv stC8 "p" instPMounted rfl rfl rfl

/-! ## C9: send_message and the null response pointer -/
/-- C9: with a current, mounted plugin and an encodable message,
`send_message_to_current_plugin` fails with the message-handling error both
when `handle_message` returns a non-zero status and when it returns status 0
with a null response out-pointer; the copied response is returned as success
exactly when the status is 0 and the out-pointer is non-null. -/
theorem send_message_null_response_spec (env : HostEnv) (s : MState)
    (msg pid : String) (inst : PluginInstance)
    (h1 : s.current = some pid) (h2 : rLookup s.instances pid = some inst)
    (h3 : inst.is_mounted = true)
    (h4 : msg.data.contains (Char.ofNat 0) = false) :
    ((env.handle_message inst.libPath msg).1 = 0 →
      (env.handle_message inst.libPath msg).2 = none →
      send_message_to_current_plugin env s msg = Except.error "插件处理消息失败")
    ∧ ((env.handle_message inst.libPath msg).1 ≠ 0 →
      send_message_to_current_plugin env s msg = Except.error "插件处理消息失败")
    ∧ (∀ r, send_message_to_current_plugin env s msg = Except.ok r ↔
        ((env.handle_message inst.libPath msg).1 = 0
          ∧ (env.handle_message inst.libPath msg).2 = some r)) := by
  have hb : send_message_to_current_plugin env s msg
      = (if (env.handle_message inst.libPath msg).1 = 0 then
          match (env.handle_message inst.libPath msg).2 with
          | some response => Except.ok response
          | none => Except.error "插件处理消息失败"
        else Except.error "插件处理消息失败") := by
    have h4m : Char.ofNat 0 ∉ msg.data := by simpa using h4
    unfold send_message_to_current_plugin
    simp [h1, h2, h3, h4m]
  rw [hb]
  refine ⟨fun hz hn => by simp [hz, hn], fun hnz => by simp [hnz], fun r => ?_⟩
  by_cases hz : (env.handle_message inst.libPath msg).1 = 0
  · rcases hr : (env.handle_message inst.libPath msg).2 with _ | resp <;>
      simp [hz, hr]
  · simp [hz]

/-- C9 witness: the spec applied to the echoing `handle_message` of the base
environment with plugin `p` mounted and current. -/
theorem send_message_null_response_spec_witness :
    send_message_to_current_plugin baseEnv stC8 "ping" = Except.ok "OK:ping" :=
  ((send_message_null_response_spec baseEnv stC8 "ping" "p" instPMounted
    rfl rfl rfl rfl).2.2 "OK:ping").mpr ⟨rfl, rfl⟩

/-- C10: on a mounted plugin with a UI instance, `handle_plugin_ui_update`
returns `Ok(true)` regardless of the `update_ui` status; and when `update_ui`
returns non-zero the stored snapshot (`ui_data`) is left unchanged, the
builder is left exactly as `update_ui` returned it (its event state is not
cleared by the manager), and no frontend notification is sent. -/
theorem handle_ui_update_spec (env : HostEnv) (s : MState)
    (pid cid v : String) (inst : PluginInstance) (ui : Ui)
    (h : rLookup s.instances pid = some inst) (hm : inst.is_mounted = true)
    (hu : inst.ui_instance = some ui) :
    (handle_plugin_ui_update env s pid cid v).1 = Except.ok true
    ∧ ((updateCallOut env inst pid cid v ui).1 ≠ 0 →
        (handle_plugin_ui_update env s pid cid v).2.2 = [Event.updateUiCall pid]
        ∧ rLookup (handle_plugin_ui_update env s pid cid v).2.1.instances pid
            = some { inst with
                ui_instance := some (updateCallOut env inst pid cid v ui).2 }) := by
  have hb : handle_plugin_ui_update env s pid cid v
      = (Except.ok true,
         (if (updateCallOut env inst pid cid v ui).1 = 0 then
            { s with instances := rUpdate s.instances pid (fun i =>
                { i with
                  ui_data := some (serializeComponents
                    (updateCallOut env inst pid cid v ui).2.get_components),
                  ui_instance :=
                    some (updateCallOut env inst pid cid v ui).2.clear_events }) }
          else
            { s with instances := rUpdate s.instances pid (fun i =>
                { i with
                  ui_instance := some (updateCallOut env inst pid cid v ui).2 }) }),
         (if (updateCallOut env inst pid cid v ui).1 = 0 then
            [Event.updateUiCall pid, Event.notifyFrontend pid]
          else [Event.updateUiCall pid])) := by
    unfold handle_plugin_ui_update updateCallOut
    rw [h]
    by_cases hz : (env.update_ui inst.libPath
        (Context.with_ui_event_data pid [(cid, v)]) ui.clear_components_only).1 = 0 <;>
      simp [hm, hu, hz]
  constructor
  · rw [hb]
  · intro hnz
    rw [hb]
    simp only [if_neg hnz]
    constructor
    · simp
    · rw [rLookup_rUpdate_self, h]
      rfl

/-- C10 witness: the spec applied to the concrete failing `update_ui`. -/
theorem handle_ui_update_spec_witness :
    (handle_plugin_ui_update envUiFail stUi "p" "btn1" "click").1 = Except.ok true
    ∧ ((updateCallOut envUiFail instPUi "p" "btn1" "click" uiPending).1 ≠ 0 →
        (handle_plugin_ui_update envUiFail stUi "p" "btn1" "click").2.2
          = [Event.updateUiCall "p"]
        ∧ rLookup (handle_plugin_ui_update envUiFail stUi "p" "btn1" "click").2.1.instances "p"
            = some { instPUi with
                ui_instance :=
                  some (updateCallOut envUiFail instPUi "p" "btn1" "click" uiPending).2 }) :=
  handle_ui_update_spec envUiFail stUi "p" "btn1" "click" instPUi uiPending rfl rfl rfl

/-- C6 counterexample: the builder recognizes `btn1`, yet because `update_ui`
returns the non-zero status 1 the event trace contains the single `update_ui`
call and NO frontend notification, contradicting the claim that a recognized
event always produces exactly one "ui updated" notification. -/
theorem c6_counterexample :
    uiC6.event_targets.contains "btn1" = true
    ∧ (handle_plugin_ui_event envC6 stC6 "p" "btn1" "click").1 = Except.ok true
    ∧ (handle_plugin_ui_event envC6 stC6 "p" "btn1" "click").2.2
        = [Event.updateUiCall "p"] :=
  ⟨rfl, rfl, rfl⟩

/-- C6 (amended): on a mounted plugin with a UI instance, when the builder
does not recognize `component_id` as a registered event target the call
returns `Ok(false)` without invoking the plugin's `update_ui` (empty trace);
when the builder recognizes it, the call returns `Ok(true)`, `update_ui` is
invoked exactly once, and exactly one "ui updated" frontend notification is
sent if that `update_ui` call returns 0 — none when it returns non-zero. -/
theorem handle_ui_event_spec (env : HostEnv) (s : MState)
    (pid cid v : String) (inst : PluginInstance) (ui : Ui)
    (h : rLookup s.instances pid = some inst) (hm : inst.is_mounted = true)
    (hu : inst.ui_instance = some ui) :
    (ui.event_targets.contains cid = false →
      (handle_plugin_ui_event env s pid cid v).1 = Except.ok false
      ∧ (handle_plugin_ui_event env s pid cid v).2.2 = [])
    ∧ (ui.event_targets.contains cid = true →
      (handle_plugin_ui_event env s pid cid v).1 = Except.ok true
      ∧ (handle_plugin_ui_event env s pid cid v).2.2
          = (if (eventCallOut env inst pid cid v ui).1 = 0
              then [Event.updateUiCall pid, Event.notifyFrontend pid]
              else [Event.updateUiCall pid])) := by
  constructor
  · intro ht
    have hb : handle_plugin_ui_event env s pid cid v
        = (Except.ok false,
           MState.mk
             (rUpdate s.instances pid
               (fun i => { i with ui_instance := some (ui.handle_ui_event cid v).2 }))
             s.current,
           []) := by
      have htm : cid ∉ ui.event_targets := by simpa using ht
      unfold handle_plugin_ui_event Ui.handle_ui_event
      rw [h]
      simp [hm, hu, htm]
    rw [hb]
    exact ⟨rfl, rfl⟩
  · intro ht
    have hfirst : (ui.handle_ui_event cid v).1 = true := by
      have htm : cid ∈ ui.event_targets := by simpa using ht
      unfold Ui.handle_ui_event
      simp [htm]
    by_cases hz : (eventCallOut env inst pid cid v ui).1 = 0
    · have hb : handle_plugin_ui_event env s pid cid v
          = (Except.ok true,
             MState.mk
               (rUpdate s.instances pid (fun i =>
                 { i with
                   ui_data := some (serializeComponents
                     (eventCallOut env inst pid cid v ui).2.get_components),
                   ui_instance :=
                     some (eventCallOut env inst pid cid v ui).2.clear_events }))
               s.current,
             [Event.updateUiCall pid, Event.notifyFrontend pid]) := by
        unfold handle_plugin_ui_event
        rw [h]
        unfold eventCallOut at hz
        simp [eventCallOut, hm, hu, hfirst, hz]
      rw [hb]
      exact ⟨rfl, by simp [hz]⟩
    · have hb : handle_plugin_ui_event env s pid cid v
          = (Except.ok true,
             MState.mk
               (rUpdate s.instances pid (fun i =>
                 { i with
                   ui_instance := some (eventCallOut env inst pid cid v ui).2 }))
               s.current,
             [Event.updateUiCall pid]) := by
        unfold handle_plugin_ui_event
        rw [h]
        unfold eventCallOut at hz
        simp [eventCallOut, hm, hu, hfirst, hz]
      rw [hb]
      exact ⟨rfl, by simp [hz]⟩

/-- C6 witness: the amended theorem applied to the concrete recognizing
builder with a failing `update_ui` (no notification) — both branches of the
recognition test instantiated. -/
theorem handle_ui_event_spec_witness :
    (uiC6.event_targets.contains "nope" = false →
      (handle_plugin_ui_event envC6 stC6 "p" "nope" "click").1 = Except.ok false
      ∧ (handle_plugin_ui_event envC6 stC6 "p" "nope" "click").2.2 = [])
    ∧ (uiC6.event_targets.contains "nope" = true →
      (handle_plugin_ui_event envC6 stC6 "p" "nope" "click").1 = Except.ok true
      ∧ (handle_plugin_ui_event envC6 stC6 "p" "nope" "click").2.2
          = (if (eventCallOut envC6 instC6 "p" "nope" "click" uiC6).1 = 0
              then [Event.updateUiCall "p", Event.notifyFrontend "p"]
              else [Event.updateUiCall "p"])) :=
  handle_ui_event_spec envC6 stC6 "p" "nope" "click" instC6 uiC6 rfl rfl rfl

theorem mem_of_rLookup (l : List (String × PluginInstance)) (k : String)
    (v : PluginInstance) (h : rLookup l k = some v) : (k, v) ∈ l := by
  induction l with
  | nil => simp [rLookup] at h
  | cons hd tl ih =>
    obtain ⟨k2, v2⟩ := hd
    by_cases hk : k2 = k
    · simp only [rLookup, if_pos hk] at h
      obtain rfl := Option.some.inj h
      simp [hk]
    · simp only [rLookup, if_neg hk] at h
      exact List.mem_cons_of_mem _ (ih h)

theorem forall_rUpdate (P : PluginInstance → Prop)
    (l : List (String × PluginInstance)) (k : String)
    (f : PluginInstance → PluginInstance)
    (hl : ∀ e ∈ l, P e.2) (hf : ∀ v, rLookup l k = some v → P (f v)) :
    ∀ e ∈ rUpdate l k f, P e.2 := by
  induction l with
  | nil => simp [rUpdate]
  | cons hd tl ih =>
    obtain ⟨k2, v⟩ := hd
    by_cases hk : k2 = k
    · subst hk
      simp only [rUpdate, if_pos rfl]
      intro e he
      rcases List.mem_cons.mp he with rfl | he2
      · exact hf v (by simp [rLookup])
      · exact hl e (List.mem_cons_of_mem _ he2)
    · simp only [rUpdate, if_neg hk]
      intro e he
      rcases List.mem_cons.mp he with rfl | he2
      · exact hl _ (List.mem_cons_self _ _)
      · refine ih (fun e2 he3 => hl e2 (List.mem_cons_of_mem _ he3)) ?_ e he2
        intro w hw
        exact hf w (by simp [rLookup, hk, hw])

theorem forall_rInsert (P : PluginInstance → Prop)
    (l : List (String × PluginInstance)) (k : String) (v : PluginInstance)
    (hl : ∀ e ∈ l, P e.2) (hv : P v) :
    ∀ e ∈ rInsert l k v, P e.2 := by
  induction l with
  | nil =>
    intro e he
    simp only [rInsert, List.mem_singleton] at he
    subst he
    exact hv
  | cons hd tl ih =>
    obtain ⟨k2, v2⟩ := hd
    by_cases hk : k2 = k
    · simp only [rInsert, if_pos hk]
      intro e he
      rcases List.mem_cons.mp he with rfl | he2
      · exact hv
      · exact hl e (List.mem_cons_of_mem _ he2)
    · simp only [rInsert, if_neg hk]
      intro e he
      rcases List.mem_cons.mp he with rfl | he2
      · exact hl _ (List.mem_cons_self _ _)
      · exact ih (fun e2 he3 => hl e2 (List.mem_cons_of_mem _ he3)) e he2

theorem FlagsInv_rUpdate (s : MState) (k : String)
    (f : PluginInstance → PluginInstance) (cur : Option String)
    (hs : FlagsInv s) (hf : PreservingUpd s k f) :
    FlagsInv (MState.mk (rUpdate s.instances k f) cur) := by
  intro e he
  refine forall_rUpdate (fun w => w.is_connected = true → w.is_mounted = true)
    s.instances k f hs (fun w hw => ?_) e he
  exact hf w hw (hs (k, w) (mem_of_rLookup _ _ _ hw))

theorem FlagsInv_of_cases (s X : MState) (pid : String) (hs : FlagsInv s)
    (hc : X = s ∨ ∃ f cur, PreservingUpd s pid f ∧
      X = MState.mk (rUpdate s.instances pid f) cur) :
    FlagsInv X := by
  rcases hc with rfl | ⟨f, cur, hf, rfl⟩
  · exact hs
  · exact FlagsInv_rUpdate s pid f cur hs hf

theorem dispose_state_cases (env : HostEnv) (s : MState) (pid : String) :
    (dispose_plugin env s pid).2.1 = s ∨
    ∃ f cur, PreservingUpd s pid f ∧
      (dispose_plugin env s pid).2.1 = MState.mk (rUpdate s.instances pid f) cur := by
  unfold dispose_plugin
  rcases h : rLookup s.instances pid with _ | inst
  · exact Or.inl rfl
  · by_cases hm : inst.is_mounted = false
    · exact Or.inl (by simp [hm])
    · refine Or.inr ⟨fun _ => { inst with is_connected := false, is_mounted := false },
        if s.current = some pid then none else s.current,
        fun w _ _ hc => by simp at hc, ?_⟩
      by_cases hd : env.on_dispose_status inst.libPath = 0 <;> simp [hm, hd]

theorem connect_state_cases (env : HostEnv) (s : MState) (pid : String) :
    (connect_plugin env s pid).2.1 = s ∨
    ∃ f cur, PreservingUpd s pid f ∧
      (connect_plugin env s pid).2.1 = MState.mk (rUpdate s.instances pid f) cur := by
  unfold connect_plugin
  rcases h : rLookup s.instances pid with _ | inst
  · exact Or.inl rfl
  · by_cases hm : inst.is_mounted = false
    · exact Or.inl (by simp [hm])
    · by_cases hc : inst.is_connected = true
      · exact Or.inl (by simp [hm, hc])
      · by_cases hr : env.on_connect_status inst.libPath = 0
        · refine Or.inr ⟨fun i => { i with is_connected := true }, s.current,
            fun w hw _ _ => ?_, by simp [hm, hc, hr]⟩
          obtain rfl := Option.some.inj (h ▸ hw)
          simpa using hm
        · exact Or.inl (by simp [hm, hc, hr])

theorem disconnect_state_cases (env : HostEnv) (s : MState) (pid : String) :
    (disconnect_plugin env s pid).2.1 = s ∨
    ∃ f cur, PreservingUpd s pid f ∧
      (disconnect_plugin env s pid).2.1 = MState.mk (rUpdate s.instances pid f) cur := by
  unfold disconnect_plugin
  rcases h : rLookup s.instances pid with _ | inst
  · exact Or.inl rfl
  · by_cases hm : inst.is_mounted = false
    · exact Or.inl (by simp [hm])
    · by_cases hc : inst.is_connected = false
      · exact Or.inl (by simp [hm, hc])
      · refine Or.inr ⟨fun i => { i with is_connected := false }, s.current,
          fun w _ _ hcc => by simp at hcc, ?_⟩
        by_cases hr : env.on_disconnect_status inst.libPath = 0 <;> simp [hm, hc, hr]

theorem get_plugin_ui_state_cases (s : MState) (pid : String) :
    (get_plugin_ui s pid).2 = s ∨
    ∃ f cur, PreservingUpd s pid f ∧
      (get_plugin_ui s pid).2 = MState.mk (rUpdate s.instances pid f) cur := by
  unfold get_plugin_ui
  rcases h : rLookup s.instances pid with _ | inst
  · exact Or.inl rfl
  · by_cases hm : inst.is_mounted = false
    · exact Or.inl (by simp [hm])
    · rcases hu : inst.ui_instance with _ | ui
      · exact Or.inl (by simp [hm, hu])
      · refine Or.inr ⟨fun i =>
          { i with ui_data := some (serializeComponents ui.get_components) },
          s.current, fun w _ hP => hP, by simp [hm, hu]⟩

theorem handle_ui_update_state_cases (env : HostEnv) (s : MState)
    (pid cid v : String) :
    (handle_plugin_ui_update env s pid cid v).2.1 = s ∨
    ∃ f cur, PreservingUpd s pid f ∧
      (handle_plugin_ui_update env s pid cid v).2.1
        = MState.mk (rUpdate s.instances pid f) cur := by
  unfold handle_plugin_ui_update
  rcases h : rLookup s.instances pid with _ | inst
  · exact Or.inl rfl
  · by_cases hm : inst.is_mounted = false
    · exact Or.inl (by simp [hm])
    · rcases hu : inst.ui_instance with _ | ui
      · exact Or.inl (by simp [hm, hu])
      · by_cases hz : (env.update_ui inst.libPath
            (Context.with_ui_event_data pid [(cid, v)]) ui.clear_components_only).1 = 0
        · refine Or.inr ⟨fun i =>
            { i with
              ui_data := some (serializeComponents (env.update_ui inst.libPath
                (Context.with_ui_event_data pid [(cid, v)])
                ui.clear_components_only).2.get_components),
              ui_instance := some (env.update_ui inst.libPath
                (Context.with_ui_event_data pid [(cid, v)])
                ui.clear_components_only).2.clear_events },
            s.current, fun w _ hP => hP, by simp [hm, hu, hz]⟩
        · refine Or.inr ⟨fun i =>
            { i with ui_instance := some (env.update_ui inst.libPath
                (Context.with_ui_event_data pid [(cid, v)])
                ui.clear_components_only).2 },
            s.current, fun w _ hP => hP, by simp [hm, hu, hz]⟩

theorem handle_ui_event_state_cases (env : HostEnv) (s : MState)
    (pid cid v : String) :
    (handle_plugin_ui_event env s pid cid v).2.1 = s ∨
    ∃ f cur, PreservingUpd s pid f ∧
      (handle_plugin_ui_event env s pid cid v).2.1
        = MState.mk (rUpdate s.instances pid f) cur := by
  unfold handle_plugin_ui_event
  rcases h : rLookup s.instances pid with _ | inst
  · exact Or.inl rfl
  · by_cases hm : inst.is_mounted = false
    · exact Or.inl (by simp [hm])
    · rcases hu : inst.ui_instance with _ | ui
      · exact Or.inl (by simp [hm, hu])
      · by_cases ht : (ui.handle_ui_event cid v).1 = true
        · by_cases hz : (env.update_ui inst.libPath
              (Context.with_ui_event_data pid [(cid, v)])
              (((ui.handle_ui_event cid v).2.handle_ui_event cid v).2.clear_components_only)).1
              = 0
          · refine Or.inr ⟨fun i =>
              { i with
                ui_data := some (serializeComponents (env.update_ui inst.libPath
                  (Context.with_ui_event_data pid [(cid, v)])
                  (((ui.handle_ui_event cid v).2.handle_ui_event cid
                    v).2.clear_components_only)).2.get_components),
                ui_instance := some (env.update_ui inst.libPath
                  (Context.with_ui_event_data pid [(cid, v)])
                  (((ui.handle_ui_event cid v).2.handle_ui_event cid
                    v).2.clear_components_only)).2.clear_events },
              s.current, fun w _ hP => hP, by simp [hm, hu, ht, hz]⟩
          · refine Or.inr ⟨fun i =>
              { i with ui_instance := some (env.update_ui inst.libPath
                  (Context.with_ui_event_data pid [(cid, v)])
                  (((ui.handle_ui_event cid v).2.handle_ui_event cid
                    v).2.clear_components_only)).2 },
              s.current, fun w _ hP => hP, by simp [hm, hu, ht, hz]⟩
        · refine Or.inr ⟨fun i =>
            { i with ui_instance := some (ui.handle_ui_event cid v).2 },
            s.current, fun w _ hP => hP, by simp [hm, hu, ht]⟩

theorem cleanup_step_state_cases (env : HostEnv) (s : MState) (pid : String) :
    (cleanup_step env s pid).1 = s ∨
    ∃ f cur, PreservingUpd s pid f ∧
      (cleanup_step env s pid).1 = MState.mk (rUpdate s.instances pid f) cur := by
  unfold cleanup_step
  rcases h : rLookup s.instances pid with _ | inst
  · exact Or.inl rfl
  · by_cases hm : inst.is_mounted = false
    · exact Or.inl (by simp [hm])
    · refine Or.inr ⟨fun i => { i with is_connected := false, is_mounted := false },
        s.current, fun w _ _ hc => by simp at hc, by simp [hm]⟩

theorem dispose_preserves_FlagsInv (env : HostEnv) (s : MState) (pid : String)
    (hs : FlagsInv s) : FlagsInv (dispose_plugin env s pid).2.1 :=
  FlagsInv_of_cases s _ pid hs (dispose_state_cases env s pid)

theorem mount_preserves_FlagsInv (env : HostEnv) (s : MState) (pid : String)
    (hs : FlagsInv s) : FlagsInv (mount_plugin env s pid).2.1 := by
  have hpre : FlagsInv (mount_prelude env s pid).1 := by
    unfold mount_prelude
    rcases hcur : s.current with _ | cid
    · exact hs
    · by_cases hne : cid = pid
      · simp only [ne_eq, hne, not_true_eq_false, if_false]
        exact hs
      · simp only [ne_eq, hne, not_false_eq_true, if_true]
        exact dispose_preserves_FlagsInv env s cid hs
  rcases hl : rLookup (mount_prelude env s pid).1.instances pid with _ | inst
  · have hb : (mount_plugin env s pid).2.1
        = (mount_fresh env (mount_prelude env s pid).1 pid).2.1 := by
      simp only [mount_plugin]
      rw [hl]
    rw [hb]
    rcases mount_fresh_shape env (mount_prelude env s pid).1 pid with
      ⟨e, _, hst⟩ | ⟨md, path, _, hst⟩
    · rw [hst]
      exact hpre
    · rw [hst]
      exact fun e he => forall_rInsert
        (fun w => w.is_connected = true → w.is_mounted = true)
        _ pid _ hpre (by simp [mountedInstance]) e he
  · by_cases hm : inst.is_mounted = true
    · have hb : (mount_plugin env s pid).2.1
          = MState.mk (mount_prelude env s pid).1.instances (some pid) := by
        simp only [mount_plugin]
        rw [hl]
        simp [hm]
      rw [hb]
      exact hpre
    · have hb : (mount_plugin env s pid).2.1
          = (mount_fresh env (mount_prelude env s pid).1 pid).2.1 := by
        simp only [mount_plugin]
        rw [hl]
        simp [hm]
      rw [hb]
      rcases mount_fresh_shape env (mount_prelude env s pid).1 pid with
        ⟨e, _, hst⟩ | ⟨md, path, _, hst⟩
      · rw [hst]
        exact hpre
      · rw [hst]
        exact fun e he => forall_rInsert
          (fun w => w.is_connected = true → w.is_mounted = true)
          _ pid _ hpre (by simp [mountedInstance]) e he

theorem cleanup_list_preserves_FlagsInv (env : HostEnv) (l : List String) :
    ∀ s : MState, FlagsInv s → FlagsInv (cleanup_list env s l).1 := by
  induction l with
  | nil => exact fun s hs => hs
  | cons pid rest ih =>
    intro s hs
    exact ih _ (FlagsInv_of_cases s _ pid hs (cleanup_step_state_cases env s pid))

/-- C5: `is_connected ⇒ is_mounted` holds for every registry entry and is
preserved by every Plugin Manager operation — mount, dispose, connect,
disconnect, process-wide cleanup, and the UI operations (get-ui, ui-update,
ui-event); message sending does not modify the state at all. -/
theorem flags_invariant_preserved (env : HostEnv) (s : MState)
    (pid cid v : String) (hs : FlagsInv s) :
    FlagsInv (mount_plugin env s pid).2.1
    ∧ FlagsInv (dispose_plugin env s pid).2.1
    ∧ FlagsInv (connect_plugin env s pid).2.1
    ∧ FlagsInv (disconnect_plugin env s pid).2.1
    ∧ FlagsInv (get_plugin_ui s pid).2
    ∧ FlagsInv (handle_plugin_ui_update env s pid cid v).2.1
    ∧ FlagsInv (handle_plugin_ui_event env s pid cid v).2.1
    ∧ FlagsInv (cleanup_all_plugins env s).1 := by
  refine ⟨mount_preserves_FlagsInv env s pid hs,
    dispose_preserves_FlagsInv env s pid hs,
    FlagsInv_of_cases s _ pid hs (connect_state_cases env s pid),
    FlagsInv_of_cases s _ pid hs (disconnect_state_cases env s pid),
    FlagsInv_of_cases s _ pid hs (get_plugin_ui_state_cases s pid),
    FlagsInv_of_cases s _ pid hs (handle_ui_update_state_cases env s pid cid v),
    FlagsInv_of_cases s _ pid hs (handle_ui_event_state_cases env s pid cid v), ?_⟩
  unfold cleanup_all_plugins
  exact fun e he => cleanup_list_preserves_FlagsInv env _ s hs e he

/-- C5 witness: the invariant-preservation theorem applied to the concrete
state with the mounted, connected plugin `p`. -/
theorem flags_invariant_preserved_witness :
    FlagsInv (mount_plugin envMount stC4 "p").2.1
    ∧ FlagsInv (dispose_plugin envMount stC4 "p").2.1
    ∧ FlagsInv (connect_plugin envMount stC4 "p").2.1
    ∧ FlagsInv (disconnect_plugin envMount stC4 "p").2.1
    ∧ FlagsInv (get_plugin_ui stC4 "p").2
    ∧ FlagsInv (handle_plugin_ui_update envMount stC4 "p" "btn1" "click").2.1
    ∧ FlagsInv (handle_plugin_ui_event envMount stC4 "p" "btn1" "click").2.1
    ∧ FlagsInv (cleanup_all_plugins envMount stC4).1 :=
  flags_invariant_preserved envMount stC4 "p" "btn1" "click"
    (by intro e he hc; simp [stC4] at he; simp [he, instPConnected])

/-! ## C7: process-wide cleanup -/
theorem rUpdate_keys (l : List (String × PluginInstance)) (k : String)
    (f : PluginInstance → PluginInstance) :
    (rUpdate l k f).map Prod.fst = l.map Prod.fst := by
  induction l with
  | nil => rfl
  | cons hd tl ih =>
    obtain ⟨k2, v⟩ := hd
    by_cases hk : k2 = k <;> simp [rUpdate, hk, ih]

theorem rLookup_eq_of_mem (l : List (String × PluginInstance))
    (hnd : (l.map Prod.fst).Nodup) (k : String) (v : PluginInstance)
    (h : (k, v) ∈ l) : rLookup l k = some v := by
  induction l with
  | nil => simp at h
  | cons hd tl ih =>
    obtain ⟨k2, v2⟩ := hd
    rcases List.mem_cons.mp h with heq | h2
    · obtain ⟨rfl, rfl⟩ := Prod.mk.injEq k v k2 v2 |>.mp heq
      simp [rLookup]
    · have hnd2 : (k2 :: tl.map Prod.fst).Nodup := hnd
      have hk : k2 ≠ k := by
        rintro rfl
        exact (List.nodup_cons.mp hnd2).1 (List.mem_map.mpr ⟨(k2, v), h2, rfl⟩)
      rw [rLookup, if_neg hk]
      exact ih (List.nodup_cons.mp hnd2).2 h2

theorem cleanup_step_mounted (env : HostEnv) (s : MState) (pid : String)
    (inst : PluginInstance) (h : rLookup s.instances pid = some inst)
    (hm : inst.is_mounted = true) :
    cleanup_step env s pid
      = (MState.mk (rUpdate s.instances pid
            (fun i => { i with is_connected := false, is_mounted := false }))
          s.current,
        (if inst.is_connected then [Event.onDisconnectCall pid] else [])
          ++ [Event.onDisposeCall pid]
          ++ (if env.hasDestroySymbol inst.libPath then [Event.destroyCall pid]
              else [])) := by
  unfold cleanup_step
  rw [h]
  simp [hm]

theorem cleanup_step_keys (env : HostEnv) (s : MState) (pid : String) :
    (cleanup_step env s pid).1.instances.map Prod.fst
      = s.instances.map Prod.fst := by
  unfold cleanup_step
  rcases h : rLookup s.instances pid with _ | inst
  · rfl
  · by_cases hm : inst.is_mounted = false
    · simp [hm]
    · simp [hm, rUpdate_keys]

theorem cleanup_list_keys (env : HostEnv) (l : List String) :
    ∀ s : MState, (cleanup_list env s l).1.instances.map Prod.fst
      = s.instances.map Prod.fst := by
  induction l with
  | nil => exact fun s => rfl
  | cons pid rest ih =>
    intro s
    calc (cleanup_list env s (pid :: rest)).1.instances.map Prod.fst
        = (cleanup_list env (cleanup_step env s pid).1 rest).1.instances.map Prod.fst := rfl
      _ = (cleanup_step env s pid).1.instances.map Prod.fst := ih _
      _ = s.instances.map Prod.fst := cleanup_step_keys env s pid

theorem cleanup_list_spec (env : HostEnv) (l : List String) :
    ∀ s : MState, l.Nodup →
    (∀ id ∈ l, ∃ inst, rLookup s.instances id = some inst
      ∧ inst.is_mounted = true) →
    (∀ id, id ∉ l →
      rLookup (cleanup_list env s l).1.instances id = rLookup s.instances id)
    ∧ (∀ id ∈ l, rLookup (cleanup_list env s l).1.instances id
        = (rLookup s.instances id).map
            (fun i => { i with is_connected := false, is_mounted := false }))
    ∧ (∀ id, (cleanup_list env s l).2.count (Event.onDisposeCall id)
        = if id ∈ l then 1 else 0)
    ∧ ((∀ p, env.hasDestroySymbol p = true) →
      ∀ id, (cleanup_list env s l).2.count (Event.destroyCall id)
        = if id ∈ l then 1 else 0)
    ∧ (∀ id inst, rLookup s.instances id = some inst →
      (cleanup_list env s l).2.count (Event.onDisconnectCall id)
        = if id ∈ l ∧ inst.is_connected = true then 1 else 0) := by
  induction l with
  | nil =>
    intro s _ _
    refine ⟨fun id _ => rfl, by simp, fun id => by simp [cleanup_list],
      fun _ id => by simp [cleanup_list], fun id inst _ => by simp [cleanup_list]⟩
  | cons pid rest ih =>
    intro s hnd hmem
    obtain ⟨inst0, h0, hm0⟩ := hmem pid (List.mem_cons_self _ _)
    have hpidrest : pid ∉ rest := (List.nodup_cons.mp hnd).1
    have hndrest : rest.Nodup := (List.nodup_cons.mp hnd).2
    have hstep := cleanup_step_mounted env s pid inst0 h0 hm0
    have hlook1 : ∀ id, id ≠ pid →
        rLookup (cleanup_step env s pid).1.instances id = rLookup s.instances id := by
      intro id hne
      rw [hstep]
      exact rLookup_rUpdate_ne _ _ _ _ (fun hh => hne hh.symm)
    have hlookpid : rLookup (cleanup_step env s pid).1.instances pid
        = some { inst0 with is_connected := false, is_mounted := false } := by
      rw [hstep]
      simp only [rLookup_rUpdate_self, h0, Option.map_some']
    have hmem1 : ∀ id ∈ rest, ∃ inst,
        rLookup (cleanup_step env s pid).1.instances id = some inst
          ∧ inst.is_mounted = true := by
      intro id hid
      obtain ⟨inst, h, hm⟩ := hmem id (List.mem_cons_of_mem _ hid)
      have hne : id ≠ pid := fun hh => hpidrest (hh ▸ hid)
      exact ⟨inst, (hlook1 id hne).trans h, hm⟩
    obtain ⟨ihA, ihB, ihC, ihD, ihE⟩ := ih (cleanup_step env s pid).1 hndrest hmem1
    have hfst : (cleanup_list env s (pid :: rest)).1
        = (cleanup_list env (cleanup_step env s pid).1 rest).1 := rfl
    have hsnd : (cleanup_list env s (pid :: rest)).2
        = (cleanup_step env s pid).2
          ++ (cleanup_list env (cleanup_step env s pid).1 rest).2 := rfl
    have hev : (cleanup_step env s pid).2
        = (if inst0.is_connected then [Event.onDisconnectCall pid] else [])
          ++ [Event.onDisposeCall pid]
          ++ (if env.hasDestroySymbol inst0.libPath then [Event.destroyCall pid]
              else []) := by rw [hstep]
    refine ⟨?_, ?_, ?_, ?_, ?_⟩
    · intro id hid
      have hne : id ≠ pid := fun hh => hid (hh ▸ List.mem_cons_self _ _)
      have hnr : id ∉ rest := fun hh => hid (List.mem_cons_of_mem _ hh)
      rw [hfst, ihA id hnr, hlook1 id hne]
    · intro id hid
      rcases List.mem_cons.mp hid with rfl | hid2
      · rw [hfst, ihA id hpidrest, hlookpid, h0, Option.map_some']
      · have hne : id ≠ pid := fun hh => hpidrest (hh ▸ hid2)
        rw [hfst, ihB id hid2, hlook1 id hne]
    · intro id
      rw [hsnd, List.count_append, ihC id, hev]
      by_cases hip : id = pid
      · subst hip
        have : id ∉ rest := hpidrest
        by_cases hc0 : inst0.is_connected <;>
          by_cases hd0 : env.hasDestroySymbol inst0.libPath <;>
            simp [hc0, hd0, this, List.count_append, List.count_cons]
      · by_cases hc0 : inst0.is_connected <;>
          by_cases hd0 : env.hasDestroySymbol inst0.libPath <;>
            simp [hc0, hd0, hip, List.mem_cons, List.count_append, List.count_cons]
    · intro hdes id
      rw [hsnd, List.count_append, ihD hdes id, hev]
      by_cases hip : id = pid
      · subst hip
        have : id ∉ rest := hpidrest
        by_cases hc0 : inst0.is_connected <;>
          simp [hc0, hdes inst0.libPath, this, List.count_append, List.count_cons]
      · by_cases hc0 : inst0.is_connected <;>
          simp [hc0, hdes inst0.libPath, hip, List.mem_cons,
            List.count_append, List.count_cons]
    · intro id inst h
      rw [hsnd, List.count_append, hev]
      by_cases hip : id = pid
      · subst hip
        obtain rfl := Option.some.inj (h.symm.trans h0)
        have hr := ihE id { inst with is_connected := false, is_mounted := false }
          hlookpid
        rw [hr]
        have hnr : id ∉ rest := hpidrest
        by_cases hc0 : inst.is_connected <;>
          by_cases hd0 : env.hasDestroySymbol inst.libPath <;>
            simp [hc0, hd0, hnr, List.count_append, List.count_cons]
      · have hr := ihE id inst ((hlook1 id hip).trans h)
        rw [hr]
        by_cases hc0 : inst0.is_connected <;>
          by_cases hd0 : env.hasDestroySymbol inst0.libPath <;>
            simp [hc0, hd0, hip, List.mem_cons, List.count_append, List.count_cons]

/-- C7: with distinct registry keys and resolvable destroy symbols (the ABI
requires every plugin to export one), process-wide cleanup disposes every
currently-mounted plugin exactly once — emitting `on_disconnect` first exactly
for the mounted-and-connected ones, one `on_dispose` and one destroy call per
mounted plugin, and none for unmounted entries — leaves every registry entry
with `is_mounted = false`, and clears the current plugin.  The statement holds
for every environment, in particular when some plugin's `on_dispose` returns
non-zero: later plugins are still cleaned up. -/
theorem cleanup_all_plugins_spec (env : HostEnv) (s : MState)
    (hnd : (s.instances.map Prod.fst).Nodup)
    (hdes : ∀ p, env.hasDestroySymbol p = true) :
    (cleanup_all_plugins env s).1.current = none
    ∧ (∀ e ∈ (cleanup_all_plugins env s).1.instances, e.2.is_mounted = false)
    ∧ (∀ pid inst, rLookup s.instances pid = some inst →
        ((cleanup_all_plugins env s).2.count (Event.onDisposeCall pid)
            = if inst.is_mounted = true then 1 else 0)
        ∧ ((cleanup_all_plugins env s).2.count (Event.destroyCall pid)
            = if inst.is_mounted = true then 1 else 0)
        ∧ ((cleanup_all_plugins env s).2.count (Event.onDisconnectCall pid)
            = if inst.is_mounted = true ∧ inst.is_connected = true then 1
              else 0)) := by
  have hlnd : ((s.instances.filter (fun p => p.2.is_mounted)).map
      (fun p => p.1)).Nodup :=
    List.Nodup.sublist (List.Sublist.map _ (List.filter_sublist _)) hnd
  have hmem : ∀ id ∈ (s.instances.filter (fun p => p.2.is_mounted)).map
      (fun p => p.1), ∃ inst, rLookup s.instances id = some inst
        ∧ inst.is_mounted = true := by
    intro id hid
    obtain ⟨e, he, rfl⟩ := List.mem_map.mp hid
    obtain ⟨hem, hmtd⟩ := List.mem_filter.mp he
    exact ⟨e.2, rLookup_eq_of_mem _ hnd _ _ hem, hmtd⟩
  have hin : ∀ pid inst, rLookup s.instances pid = some inst →
      (pid ∈ (s.instances.filter (fun p => p.2.is_mounted)).map (fun p => p.1)
        ↔ inst.is_mounted = true) := by
    intro pid inst h
    constructor
    · intro hid
      obtain ⟨inst2, h2, hm2⟩ := hmem pid hid
      obtain rfl := Option.some.inj (h.symm.trans h2)
      exact hm2
    · intro hm
      exact List.mem_map.mpr ⟨(pid, inst),
        List.mem_filter.mpr ⟨mem_of_rLookup _ _ _ h, hm⟩, rfl⟩
  obtain ⟨hA, hB, hC, hD, hE⟩ := cleanup_list_spec env
    ((s.instances.filter (fun p => p.2.is_mounted)).map (fun p => p.1)) s
    hlnd hmem
  have hkeys : (cleanup_list env s ((s.instances.filter
      (fun p => p.2.is_mounted)).map (fun p => p.1))).1.instances.map Prod.fst
      = s.instances.map Prod.fst := cleanup_list_keys env _ s
  have hknd : ((cleanup_list env s ((s.instances.filter
      (fun p => p.2.is_mounted)).map (fun p => p.1))).1.instances.map
        Prod.fst).Nodup := by
    rw [hkeys]
    exact hnd
  have hst : (cleanup_all_plugins env s).1.instances
      = (cleanup_list env s ((s.instances.filter
          (fun p => p.2.is_mounted)).map (fun p => p.1))).1.instances := rfl
  have hev : (cleanup_all_plugins env s).2
      = (cleanup_list env s ((s.instances.filter
          (fun p => p.2.is_mounted)).map (fun p => p.1))).2 := rfl
  refine ⟨rfl, ?_, ?_⟩
  · intro e he
    obtain ⟨k, v⟩ := e
    rw [hst] at he
    have hv := rLookup_eq_of_mem _ hknd _ _ he
    by_cases hkl : k ∈ (s.instances.filter (fun p => p.2.is_mounted)).map
        (fun p => p.1)
    · have hb2 := hB k hkl
      rw [hv] at hb2
      obtain ⟨inst, h2, hm2⟩ := hmem k hkl
      rw [h2, Option.map_some'] at hb2
      obtain rfl := Option.some.inj hb2
      rfl
    · have ha2 := hA k hkl
      rw [hv] at ha2
      by_contra hvm
      have hvm2 : v.is_mounted = true := by
        rcases hb : v.is_mounted with _ | _
        · exact absurd hb hvm
        · rfl
      exact hkl ((hin k v ha2.symm).mpr hvm2)
  · intro pid inst h
    have hiff := hin pid inst h
    refine ⟨?_, ?_, ?_⟩
    · rw [hev, hC pid]
      by_cases hm : inst.is_mounted = true <;> simp [hm, hiff]
    · rw [hev, hD hdes pid]
      by_cases hm : inst.is_mounted = true <;> simp [hm, hiff]
    · rw [hev, hE pid inst h]
      by_cases hm : inst.is_mounted = true <;> simp [hm, hiff]

/-- C7 witness: cleanup of two mounted plugins under failing `on_dispose`
still disposes both exactly once and clears the current plugin. -/
theorem cleanup_all_plugins_spec_witness :
    (cleanup_all_plugins envC7 stC7).1.current = none
    ∧ (∀ e ∈ (cleanup_all_plugins envC7 stC7).1.instances, e.2.is_mounted = false)
    ∧ (cleanup_all_plugins envC7 stC7).2.count (Event.onDisposeCall "p") = 1
    ∧ (cleanup_all_plugins envC7 stC7).2.count (Event.onDisposeCall "q") = 1 := by
  have h := cleanup_all_plugins_spec envC7 stC7 (by decide) (fun p => rfl)
  refine ⟨h.1, h.2.1, ?_, ?_⟩
  · have h2 := (h.2.2 "p" instPConnected rfl).1
    simpa [instPConnected] using h2
  · have h2 := (h.2.2 "q" instQMounted rfl).1
    simpa [instQMounted] using h2

end ChatClient
